import Mathlib

/-!
Verification of `downloader.py` (earthdata_downloader).

The Python source is shallowly embedded below.  Pure functions become Lean
functions; the filesystem, the process environment and the per-attempt
network outcomes are passed explicitly.  Library calls made by the source
(`requests.Session.rebuild_auth` / `should_strip_auth`, `pandas.read_csv`,
`pathlib.Path(...).name`) are embedded with the semantics of those libraries,
since the source's behaviour is determined by them.
-/

namespace EarthdataDownloader

/-- `AUTH_HOST` constant from downloader.py. -/
def AUTH_HOST : String := "urs.earthdata.nasa.gov"

/-- `MAX_RETRIES` constant from downloader.py. -/
def MAX_RETRIES : Nat := 5

/-- The parts of a parsed URL that `requests.sessions.Session.should_strip_auth`
and the overridden `rebuild_auth` inspect: `urlparse(url).scheme`,
`.hostname` (absent for URLs with no netloc) and `.port` (absent when no
explicit port is given). -/
structure UrlParts where
  scheme : String
  hostname : Option String
  port : Option Nat
deriving DecidableEq

/-- `requests.models.DEFAULT_PORTS = {"http": 80, "https": 443}`, as the
lookup `DEFAULT_PORTS.get(scheme, None)`. -/
def DEFAULT_PORTS (scheme : String) : Option Nat :=
  if scheme = "http" then some 80 else if scheme = "https" then some 443 else none

/-- `requests.sessions.Session.should_strip_auth(old_url, new_url)`:
strip on any hostname change; on the same host, keep for the standard
http→https upgrade and for default-port/no-port equivalences, otherwise
strip when the scheme or the port changed. -/
def should_strip_auth (old new : UrlParts) : Bool :=
  if old.hostname ≠ new.hostname then
    true
  else if old.scheme = "http" ∧ (old.port = some 80 ∨ old.port = none) ∧
          new.scheme = "https" ∧ (new.port = some 443 ∨ new.port = none) then
    false
  else if old.scheme = new.scheme ∧
          (old.port = DEFAULT_PORTS old.scheme ∨ old.port = none) ∧
          (new.port = DEFAULT_PORTS old.scheme ∨ new.port = none) then
    false
  else
    decide (old.port ≠ new.port) || decide (old.scheme ≠ new.scheme)

/-- `requests.sessions.Session.rebuild_auth` (the base-class method invoked by
`super().rebuild_auth(prepared_request, response)` in downloader.py):
`if "Authorization" in headers and self.should_strip_auth(response.request.url, url):
del headers["Authorization"]`.  The trailing netrc re-attachment
(`get_netrc_auth(url)`) yields `None` when no netrc file is configured and is
modelled as absent.  `auth?` is the value of the `Authorization` header of the
outgoing redirected request (`none` = header absent). -/
def session_rebuild_auth (auth? : Option String) (old new : UrlParts) : Option String :=
  if auth?.isSome ∧ should_strip_auth old new then none else auth?

/-- `SessionWithHeaderRedirection.rebuild_auth` (downloader.py lines 75-92):
first runs `super().rebuild_auth(prepared_request, response)`, then, when the
hostnames differ and neither equals `AUTH_HOST`, deletes the `Authorization`
header if it is still present (deleting a present header or leaving an absent
one both yield an absent header). -/
def rebuild_auth (auth? : Option String) (old new : UrlParts) : Option String :=
  let a := session_rebuild_auth auth? old new
  if old.hostname ≠ new.hostname ∧ new.hostname ≠ some AUTH_HOST ∧
     old.hostname ≠ some AUTH_HOST then
    none
  else
    a

/-- Splitting a character list on a separator character, accumulating the
current field in reverse. -/
def splitOnCharAux (sep : Char) : List Char → List Char → List String
  | [], acc => [⟨acc.reverse⟩]
  | c :: cs, acc =>
    if c = sep then ⟨acc.reverse⟩ :: splitOnCharAux sep cs []
    else splitOnCharAux sep cs (c :: acc)

/-- Splitting a string on a single separator character (the semantics of
Python's `str.split(sep)` for a one-character separator; `""` yields `[""]`). -/
def splitOnChar (sep : Char) (s : String) : List String :=
  splitOnCharAux sep s.data []

/-- `pathlib.Path(url).name`: the last component of the string split on `/`,
after dropping empty components and `.` components (pathlib normalisation).
Used at downloader.py lines 145 and 167 to derive the destination filename. -/
def destName (url : String) : String :=
  ((((splitOnChar '/' url).filter (fun c => decide (c ≠ "" ∧ c ≠ "."))).getLast?).getD "")

/-- Outcome of one attempt's interaction with network and disk
(downloader.py lines 169-175).  `success body`: the GET succeeded with a 2xx
status and `body` was fully streamed; `httpError`: a
`requests.exceptions.RequestException` was raised by `session.get` or
`raise_for_status` (before the destination file is opened); `streamError w`:
a `RequestException` was raised by `iter_content` mid-stream after the file
was truncated and `w` written; `osError f?`: a non-`RequestException`
(e.g. `OSError`) was raised opening or writing the file, `f?` = the file
content at that point (`none` = `open` itself failed, file untouched). -/
inductive Outcome where
  | success (body : List Nat)
  | httpError
  | streamError (written : List Nat)
  | osError (fileAfter : Option (List Nat))
deriving DecidableEq

/-- Whether the outcome is a `requests.exceptions.RequestException`,
i.e. caught by the `except` clause at line 178. -/
def Outcome.isTransient : Outcome → Bool
  | .httpError => true
  | .streamError _ => true
  | _ => false

/-- Whether the outcome is an exception NOT caught by the `except` clause. -/
def Outcome.isOsError : Outcome → Bool
  | .osError _ => true
  | _ => false

/-- The destination directory's contents: filename ↦ file bytes. -/
abbrev FS := String → Option (List Nat)

/-- Writing `content` to file `name` (open with mode `wb` then write). -/
def setFile (fs : FS) (name : String) (content : List Nat) : FS :=
  fun k => if k = name then some content else fs k

/-- Terminal state of a WorkItem's retry loop. -/
inductive Terminal where
  | succeeded
  | failed
deriving DecidableEq

/-- Result of `download_with_retries` for one URL: `done requests term fs` =
the function returned normally after issuing `requests` GETs; `raised` = an
uncaught exception propagated out after `requests` GETs. -/
inductive DLResult where
  | done (requests : Nat) (term : Terminal) (fs : FS)
  | raised (requests : Nat) (fs : FS)

/-- Number of GET requests issued (one per attempt entered). -/
def DLResult.requestCount : DLResult → Nat
  | .done r _ _ => r
  | .raised r _ => r

/-- `some Terminal` when the retry loop terminated normally, `none` when an
uncaught exception propagated. -/
def DLResult.terminalState : DLResult → Option Terminal
  | .done _ t _ => some t
  | .raised _ _ => none

/-- The filesystem after the retry loop ends. -/
def DLResult.finalFs : DLResult → FS
  | .done _ _ fs => fs
  | .raised _ fs => fs

/-- The body of `for attempt in range(1, MAX_RETRIES + 1)` (lines 168-183),
iterated over the remaining attempt numbers.  Falling off the list without a
`break` is the `Failed` terminal state; `success` breaks out; `httpError` and
`streamError` are caught and the loop continues; `osError` propagates. -/
def runRetries (outcomes : Nat → Outcome) (name : String) :
    List Nat → Nat → FS → DLResult
  | [], reqs, fs => .done reqs .failed fs
  | a :: rest, reqs, fs =>
    match outcomes a with
    | .success body => .done (reqs + 1) .succeeded (setFile fs name body)
    | .httpError => runRetries outcomes name rest (reqs + 1) fs
    | .streamError w => runRetries outcomes name rest (reqs + 1) (setFile fs name w)
    | .osError none => .raised (reqs + 1) fs
    | .osError (some w) => .raised (reqs + 1) (setFile fs name w)

/-- `Downloader.download_with_retries` (lines 160-183) for the file named
`name` (= `Path(url).name`), with `outcomes n` the outcome of attempt `n`. -/
def download_with_retries (outcomes : Nat → Outcome) (name : String) (fs : FS) : DLResult :=
  runRetries outcomes name (List.range' 1 MAX_RETRIES) 0 fs

/-- Result of the `download_all` loop: `completed log fs` = every queued
WorkItem ran to a terminal state, `log` recording (url, requests issued,
terminal state) in processing order; `aborted log url requests fs` = an
uncaught exception from `url`'s WorkItem (after `requests` GETs) propagated,
`log` recording only the WorkItems completed before it. -/
inductive RunOutcome where
  | completed (log : List (String × Nat × Terminal)) (fs : FS)
  | aborted (log : List (String × Nat × Terminal)) (url : String) (requests : Nat) (fs : FS)

/-- `Downloader.download_all` (lines 153-158): run `download_with_retries`
on each queued URL in order; an exception it does not catch propagates and
stops the whole loop. -/
def download_all (outcomes : String → Nat → Outcome) : List String → FS → RunOutcome
  | [], fs => .completed [] fs
  | u :: rest, fs =>
    match download_with_retries (outcomes u) (destName u) fs with
    | .done r t fs' =>
      match download_all outcomes rest fs' with
      | .completed log fs'' => .completed ((u, r, t) :: log) fs''
      | .aborted log u' r' fs'' => .aborted ((u, r, t) :: log) u' r' fs''
    | .raised r fs' => .aborted [] u r fs'

/-- `Downloader.filter_existing_files` (lines 136-151): keep, in order, the
URLs whose destination filename does not exist; `ex` is the existence check
`(self.save_dir / Path(url).name).exists()` against the directory at call
time. -/
def filter_existing_files (ex : String → Bool) : List String → List String
  | [] => []
  | u :: rest =>
    if ex (destName u) then filter_existing_files ex rest
    else u :: filter_existing_files ex rest

/-- The lines `pandas.read_csv` keeps (`skip_blank_lines=True`). -/
def nonBlank (lines : List String) : List String :=
  lines.filter (fun l => decide (l ≠ ""))

/-- Number of comma-separated fields of a line. -/
def numFields (line : String) : Nat := (splitOnChar ',' line).length

/-- First comma-separated field of a line, as `dtype=str` column 0 sees it:
an empty field is NaN (`none`), which `dropna` removes. -/
def firstCol (line : String) : Option String :=
  match splitOnChar ',' line with
  | [] => none
  | f :: _ => if f = "" then none else some f

/-- `pd.read_csv(path, header=None, dtype=str)` followed by `df.iloc[:, 0]`:
blank lines are skipped; an empty file (or all-blank file) raises
`EmptyDataError`; the expected field count is that of the first row and a row
with MORE fields raises `ParserError` (default `on_bad_lines="error"`); a row
with fewer fields is padded with NaN, which does not affect column 0. -/
def read_csv_col0 (lines : List String) : Except Unit (List (Option String))  :=
  match nonBlank lines with
  | [] => .error ()
  | first :: _ =>
    if (nonBlank lines).all (fun l => decide (numFields l ≤ numFields first)) then
      .ok ((nonBlank lines).map firstCol)
    else
      .error ()

/-- `Downloader.load_urls` (lines 120-134): `file = none` models a file that
cannot be opened/read at all (`read_csv` raises); any exception is caught and
turned into `sys.exit(1)`, modelled as `Except.error ()`.  On success the
result is column 0 with NaN entries dropped (`dropna().tolist()`). -/
def load_urls (file : Option (List String)) : Except Unit (List String) :=
  match file with
  | none => .error ()
  | some lines =>
    match read_csv_col0 lines with
    | .error e => .error e
    | .ok col => .ok (col.filterMap id)

/-- `del os.environ[k]` on an environment modelled as a partial map. -/
def delEnv (env : String → Option String) (k : String) : String → Option String :=
  fun x => if x = k then none else env x

/-- `remove_proxy_env_vars` (lines 185-196): delete `http_proxy` and
`https_proxy` from the environment when present. -/
def remove_proxy_env_vars (env : String → Option String) : String → Option String :=
  let e1 := if (env "http_proxy").isSome then delEnv env "http_proxy" else env
  if (e1 "https_proxy").isSome then delEnv e1 "https_proxy" else e1

/-- Observable result of running `main` (lines 232-254): the process exit
status, and the run (`none` when the URL list could not be loaded, so no
download was attempted). -/
structure MainResult where
  exitCode : Nat
  run : Option RunOutcome

/-- `main`: load the URL list (a failure is `sys.exit(1)`), filter out
already-existing files, download the rest sequentially; an uncaught exception
makes the Python process exit non-zero, a completed run exits 0. -/
def main (file : Option (List String)) (ex : String → Bool)
    (outcomes : String → Nat → Outcome) (fs : FS) : MainResult :=
  match load_urls file with
  | .error _ => { exitCode := 1, run := none }
  | .ok urls =>
    match download_all outcomes (filter_existing_files ex urls) fs with
    | .completed log fs' => { exitCode := 0, run := some (.completed log fs') }
    | .aborted log u r fs' => { exitCode := 1, run := some (.aborted log u r fs') }

/-- A transient (caught) outcome is `httpError` or some `streamError`. -/
theorem isTransient_eq (o : Outcome) (h : o.isTransient = true) :
    o = Outcome.httpError ∨ ∃ w, o = Outcome.streamError w := by
  cases o with
  | httpError => exact Or.inl rfl
  | streamError w => exact Or.inr ⟨w, rfl⟩
  | success b => simp [Outcome.isTransient] at h
  | osError f => simp [Outcome.isTransient] at h

/-- Claim C1: the claim states the Authorization header is removed iff the
hostnames differ and neither is the auth host, and that a redirect with the
auth host on either side keeps the header.  The code evaluates otherwise: it
first runs the base-class `rebuild_auth`, which already strips the header on
every hostname change, so a cross-host redirect leaving or entering
`urs.earthdata.nasa.gov` loses the Authorization header. -/
theorem c1_auth_host_redirect_strips :
    rebuild_auth (some "Basic dXNlcjpwYXNz")
      { scheme := "https", hostname := some AUTH_HOST, port := none }
      { scheme := "https", hostname := some "opendap.earthdata.nasa.gov", port := none }
      = none ∧
    rebuild_auth (some "Basic dXNlcjpwYXNz")
      { scheme := "https", hostname := some "opendap.earthdata.nasa.gov", port := none }
      { scheme := "https", hostname := some AUTH_HOST, port := none }
      = none :=
  ⟨rfl, rfl⟩

/-- Claim C2: if every attempt for a URL fails with a network/HTTP error,
the retry loop issues exactly MAX_RETRIES = 5 requests and the WorkItem
terminates in the Failed state. -/
theorem c2_retry_bound (outcomes : Nat → Outcome) (name : String) (fs : FS)
    (h : ∀ n, 1 ≤ n → n ≤ MAX_RETRIES → (outcomes n).isTransient = true) :
    (download_with_retries outcomes name fs).requestCount = MAX_RETRIES ∧
    MAX_RETRIES = 5 ∧
    (download_with_retries outcomes name fs).terminalState = some Terminal.failed := by
  have t1 := isTransient_eq _ (h 1 (by omega) (by decide))
  have t2 := isTransient_eq _ (h 2 (by omega) (by decide))
  have t3 := isTransient_eq _ (h 3 (by omega) (by decide))
  have t4 := isTransient_eq _ (h 4 (by omega) (by decide))
  have t5 := isTransient_eq _ (h 5 (by omega) (by decide))
  have hr : List.range' 1 MAX_RETRIES = [1, 2, 3, 4, 5] := rfl
  rcases t1 with h1 | ⟨w1, h1⟩ <;> rcases t2 with h2 | ⟨w2, h2⟩ <;>
    rcases t3 with h3 | ⟨w3, h3⟩ <;> rcases t4 with h4 | ⟨w4, h4⟩ <;>
    rcases t5 with h5 | ⟨w5, h5⟩ <;>
    simp [download_with_retries, hr, runRetries, h1, h2, h3, h4, h5,
      MAX_RETRIES, DLResult.requestCount, DLResult.terminalState]

/-- Witness for C2: a URL failing all five attempts with connection errors. -/
theorem c2_retry_bound_witness :
    (download_with_retries (fun _ => Outcome.httpError) "f" (fun _ => none)).requestCount
      = MAX_RETRIES ∧
    MAX_RETRIES = 5 ∧
    (download_with_retries (fun _ => Outcome.httpError) "f" (fun _ => none)).terminalState
      = some Terminal.failed :=
  c2_retry_bound (fun _ => Outcome.httpError) "f" (fun _ => none) (fun _ _ _ => rfl)

/-- Claim C3: if attempts 1..n-1 fail with network/HTTP errors and attempt n
succeeds with body `body` (n ≤ MAX_RETRIES), exactly n requests are issued,
the loop stops in the Succeeded state, and the destination file holds exactly
`body` (earlier attempts' writes do not survive). -/
theorem c3_retry_success (outcomes : Nat → Outcome) (name : String) (fs : FS)
    (n : Nat) (body : List Nat) (hn1 : 1 ≤ n) (hn5 : n ≤ MAX_RETRIES)
    (ht : ∀ k, 1 ≤ k → k < n → (outcomes k).isTransient = true)
    (hs : outcomes n = Outcome.success body) :
    (download_with_retries outcomes name fs).requestCount = n ∧
    (download_with_retries outcomes name fs).terminalState = some Terminal.succeeded ∧
    (download_with_retries outcomes name fs).finalFs name = some body := by
  have hr : List.range' 1 MAX_RETRIES = [1, 2, 3, 4, 5] := rfl
  have hn5' : n ≤ 5 := hn5
  interval_cases n
  · simp [download_with_retries, hr, runRetries, hs, setFile,
      DLResult.requestCount, DLResult.terminalState, DLResult.finalFs]
  · rcases isTransient_eq _ (ht 1 (by omega) (by omega)) with h1 | ⟨w1, h1⟩ <;>
      simp [download_with_retries, hr, runRetries, hs, h1, setFile,
        DLResult.requestCount, DLResult.terminalState, DLResult.finalFs]
  · rcases isTransient_eq _ (ht 1 (by omega) (by omega)) with h1 | ⟨w1, h1⟩ <;>
      rcases isTransient_eq _ (ht 2 (by omega) (by omega)) with h2 | ⟨w2, h2⟩ <;>
      simp [download_with_retries, hr, runRetries, hs, h1, h2, setFile,
        DLResult.requestCount, DLResult.terminalState, DLResult.finalFs]
  · rcases isTransient_eq _ (ht 1 (by omega) (by omega)) with h1 | ⟨w1, h1⟩ <;>
      rcases isTransient_eq _ (ht 2 (by omega) (by omega)) with h2 | ⟨w2, h2⟩ <;>
      rcases isTransient_eq _ (ht 3 (by omega) (by omega)) with h3 | ⟨w3, h3⟩ <;>
      simp [download_with_retries, hr, runRetries, hs, h1, h2, h3, setFile,
        DLResult.requestCount, DLResult.terminalState, DLResult.finalFs]
  · rcases isTransient_eq _ (ht 1 (by omega) (by omega)) with h1 | ⟨w1, h1⟩ <;>
      rcases isTransient_eq _ (ht 2 (by omega) (by omega)) with h2 | ⟨w2, h2⟩ <;>
      rcases isTransient_eq _ (ht 3 (by omega) (by omega)) with h3 | ⟨w3, h3⟩ <;>
      rcases isTransient_eq _ (ht 4 (by omega) (by omega)) with h4 | ⟨w4, h4⟩ <;>
      simp [download_with_retries, hr, runRetries, hs, h1, h2, h3, h4, setFile,
        DLResult.requestCount, DLResult.terminalState, DLResult.finalFs]

/-- Witness for C3: attempts 1 and 2 fail, attempt 3 succeeds with body [7]. -/
theorem c3_retry_success_witness :
    (download_with_retries (fun n => if n = 3 then Outcome.success [7] else Outcome.httpError)
      "f" (fun _ => none)).requestCount = 3 ∧
    (download_with_retries (fun n => if n = 3 then Outcome.success [7] else Outcome.httpError)
      "f" (fun _ => none)).terminalState = some Terminal.succeeded ∧
    (download_with_retries (fun n => if n = 3 then Outcome.success [7] else Outcome.httpError)
      "f" (fun _ => none)).finalFs "f" = some [7] :=
  c3_retry_success _ "f" (fun _ => none) 3 [7] (by omega) (by decide)
    (fun k hk1 hk3 => by interval_cases k <;> rfl) rfl

/-- Claim C4 counterexample: for `https://host/path/to/file.nc?query=1` the
derived destination filename is NOT `file.nc` — `Path(url).name` keeps the
query string, since `?` is an ordinary character to `pathlib`. -/
theorem c4_counterexample :
    destName "https://host/path/to/file.nc?query=1" ≠ "file.nc" := by decide

/-- Claim C4 (amended): the destination filename is the final slash-delimited
segment of the entire URL string, with any query string kept as part of it:
for `https://host/path/to/file.nc?query=1` it is `file.nc?query=1`, and only
for a query-free URL such as `https://host/path/to/file.nc` is it the bare
path segment `file.nc`. -/
theorem c4_filename_derivation :
    destName "https://host/path/to/file.nc?query=1" = "file.nc?query=1" ∧
    destName "https://host/path/to/file.nc" = "file.nc" :=
  ⟨rfl, rfl⟩

/-- Claim C5: the Existing-File Filter returns exactly the URLs whose derived
destination filename does not exist, in input order, and a URL whose file is
already present is never in the output queue (so it is never requested). -/
theorem c5_filter_existing (ex : String → Bool) (urls : List String) :
    filter_existing_files ex urls = urls.filter (fun u => !(ex (destName u))) ∧
    ∀ F, F ∈ urls → ex (destName F) = true → F ∉ filter_existing_files ex urls := by
  have hfil : filter_existing_files ex urls = urls.filter (fun u => !(ex (destName u))) := by
    induction urls with
    | nil => rfl
    | cons u rest ih =>
      by_cases hex : ex (destName u) <;> simp [filter_existing_files, hex, ih]
  refine ⟨hfil, ?_⟩
  intro F _ hexF hmem
  rw [hfil, List.mem_filter] at hmem
  rw [hexF] at hmem
  simp at hmem

/-- Witness for C5: `f.nc` already on disk, so its URL is filtered out. -/
theorem c5_filter_existing_witness :
    "https://h/f.nc" ∉
      filter_existing_files (fun n => n == "f.nc") ["https://h/f.nc", "https://h/g.nc"] :=
  (c5_filter_existing (fun n => n == "f.nc") ["https://h/f.nc", "https://h/g.nc"]).2
    "https://h/f.nc" (by simp) (by rfl)

/-- Claim C7 counterexample: a file whose second line has more
comma-separated fields than its first line is not "dropped" — `read_csv`
raises `ParserError`, the exception handler calls `sys.exit(1)`, and the
whole load fails.  Under the claim the load would succeed with the first
columns `["a", "b"]`. -/
theorem c7_counterexample :
    load_urls (some ["a", "b,c"]) = Except.error () ∧
    load_urls (some ["a", "b,c"]) ≠ Except.ok ["a", "b"] := by
  refine ⟨rfl, ?_⟩
  intro hcontra
  rw [show load_urls (some ["a", "b,c"]) = Except.error () from rfl] at hcontra
  exact Except.noConfusion hcontra

/-- `filterMap id` after `map f` is `filterMap f` (dropna of a mapped column). -/
theorem filterMap_id_map (l : List String) (f : String → Option String) :
    (l.map f).filterMap id = l.filterMap f := by
  induction l with
  | nil => rfl
  | cons a rest ih => cases h : f a <;> simp [List.filterMap_cons, h, ih]

/-- Claim C7 (amended): each kept line contributes its first comma-delimited
column; blank lines are skipped and lines whose first column is empty are
dropped; but a line with more comma-separated fields than the first non-blank
line makes the entire load fail (fatal, process exits non-zero) instead of
being dropped. -/
theorem c7_load_urls (lines : List String) (first : String) (rest : List String)
    (hrows : nonBlank lines = first :: rest) :
    ((∀ l ∈ rest, numFields l ≤ numFields first) →
      load_urls (some lines) = Except.ok ((first :: rest).filterMap firstCol)) ∧
    ((∃ l ∈ rest, numFields first < numFields l) →
      load_urls (some lines) = Except.error ()) := by
  constructor
  · intro hall
    simp [load_urls, read_csv_col0, hrows, List.filterMap_cons]
    rw [if_pos hall]
    cases hf : firstCol first <;> simp [List.filterMap_cons, filterMap_id_map, hf]
  · rintro ⟨l, hl, hlt⟩
    have hneg : ¬ ∀ x ∈ rest, numFields x ≤ numFields first := by
      intro hforall
      have := hforall l hl
      omega
    simp [load_urls, read_csv_col0, hrows, hneg]

/-- Witness for C7: a well-formed list file with a blank line, a comma line
and an empty first column loads to the first columns with NaN rows dropped. -/
theorem c7_load_urls_witness :
    load_urls (some ["a,b", "", "c", ",d"]) = Except.ok ["a", "c"] := by
  have h := (c7_load_urls ["a,b", "", "c", ",d"] "a,b" ["c", ",d"] (by rfl)).1 (by decide)
  exact h.trans (by rfl)

/-- Claim C8: `remove_proxy_env_vars` leaves an environment in which both
`http_proxy` and `https_proxy` are absent, and every other variable is
unchanged. -/
theorem c8_remove_proxy (env : String → Option String) :
    remove_proxy_env_vars env "http_proxy" = none ∧
    remove_proxy_env_vars env "https_proxy" = none ∧
    ∀ k, k ≠ "http_proxy" → k ≠ "https_proxy" →
      remove_proxy_env_vars env k = env k := by
  refine ⟨?_, ?_, ?_⟩
  · cases h1 : env "http_proxy" <;> cases h2 : env "https_proxy" <;>
      simp [remove_proxy_env_vars, delEnv, h1, h2]
  · cases h1 : env "http_proxy" <;> cases h2 : env "https_proxy" <;>
      simp [remove_proxy_env_vars, delEnv, h1, h2]
  · intro k hk1 hk2
    cases h1 : env "http_proxy" <;> cases h2 : env "https_proxy" <;>
      simp [remove_proxy_env_vars, delEnv, h1, h2, hk1, hk2]

/-- Witness for C8: an environment with `http_proxy` and `PATH` set —
`http_proxy` is removed, `PATH` keeps its value. -/
theorem c8_remove_proxy_witness :
    remove_proxy_env_vars
      (fun k => if k = "http_proxy" then some "hp"
        else if k = "PATH" then some "/bin" else none) "http_proxy" = none ∧
    remove_proxy_env_vars
      (fun k => if k = "http_proxy" then some "hp"
        else if k = "PATH" then some "/bin" else none) "PATH" = some "/bin" := by
  have h := c8_remove_proxy
    (fun k => if k = "http_proxy" then some "hp"
      else if k = "PATH" then some "/bin" else none)
  refine ⟨h.1, ?_⟩
  rw [h.2.2 "PATH" (by decide) (by decide)]
  decide

/-- When no attempt raises an uncaught exception, the retry loop always
returns normally. -/
theorem runRetries_no_os (outcomes : Nat → Outcome) (name : String)
    (h : ∀ n, (outcomes n).isOsError = false) :
    ∀ (l : List Nat) (reqs : Nat) (fs : FS),
      ∃ r t fs', runRetries outcomes name l reqs fs = DLResult.done r t fs' := by
  intro l
  induction l with
  | nil => intro reqs fs; exact ⟨reqs, Terminal.failed, fs, rfl⟩
  | cons a rest ih =>
    intro reqs fs
    cases ha : outcomes a with
    | success body =>
      exact ⟨reqs + 1, Terminal.succeeded, setFile fs name body, by simp [runRetries, ha]⟩
    | httpError =>
      obtain ⟨r, t, fs', he⟩ := ih (reqs + 1) fs
      exact ⟨r, t, fs', by simpa [runRetries, ha] using he⟩
    | streamError w =>
      obtain ⟨r, t, fs', he⟩ := ih (reqs + 1) (setFile fs name w)
      exact ⟨r, t, fs', by simpa [runRetries, ha] using he⟩
    | osError f? =>
      have hcontra := h a
      rw [ha] at hcontra
      simp [Outcome.isOsError] at hcontra

/-- When no attempt of any URL raises an uncaught exception, the download
loop completes, processing every queued URL in order. -/
theorem download_all_no_os (outcomes : String → Nat → Outcome)
    (h : ∀ u n, (outcomes u n).isOsError = false) :
    ∀ (urls : List String) (fs : FS),
      ∃ log fs', download_all outcomes urls fs = RunOutcome.completed log fs' ∧
        log.map Prod.fst = urls := by
  intro urls
  induction urls with
  | nil => intro fs; exact ⟨[], fs, rfl, rfl⟩
  | cons u rest ih =>
    intro fs
    obtain ⟨r, t, fs1, hdwr⟩ :=
      runRetries_no_os (outcomes u) (destName u) (h u) (List.range' 1 MAX_RETRIES) 0 fs
    obtain ⟨log, fs2, hda, hmap⟩ := ih fs1
    refine ⟨(u, r, t) :: log, fs2, ?_, ?_⟩
    · simp [download_all, download_with_retries, hdwr, hda]
    · simp [hmap]

/-- Claim C6: when the URL list file cannot be read, the process exits with
status 1 and no download is attempted; when the list loads and no WorkItem
raises an uncaught exception, every queued WorkItem is processed in order —
however many of them end in Failed — and the process exits 0. -/
theorem c6_exit_behavior (ex : String → Bool) (outcomes : String → Nat → Outcome) (fs : FS) :
    ((main none ex outcomes fs).exitCode = 1 ∧ (main none ex outcomes fs).run = none) ∧
    ∀ lines urls, load_urls (some lines) = Except.ok urls →
      (∀ u n, (outcomes u n).isOsError = false) →
      (main (some lines) ex outcomes fs).exitCode = 0 ∧
      ∃ log fs', (main (some lines) ex outcomes fs).run = some (RunOutcome.completed log fs') ∧
        log.map Prod.fst = filter_existing_files ex urls := by
  refine ⟨⟨rfl, rfl⟩, ?_⟩
  intro lines urls hload hos
  obtain ⟨log, fs', hda, hmap⟩ := download_all_no_os outcomes hos (filter_existing_files ex urls) fs
  refine ⟨by simp [main, hload, hda], log, fs', by simp [main, hload, hda], hmap⟩

/-- Witness for C6: a loadable one-URL list whose every attempt fails still
exits 0, while an unreadable list exits 1. -/
theorem c6_exit_behavior_witness :
    (main (some ["u"]) (fun _ => false) (fun _ _ => Outcome.httpError) (fun _ => none)).exitCode
      = 0 ∧
    (main none (fun _ => false) (fun _ _ => Outcome.httpError) (fun _ => none)).exitCode = 1 := by
  have h := c6_exit_behavior (fun _ => false) (fun _ _ => Outcome.httpError) (fun _ => none)
  exact ⟨(h.2 ["u"] ["u"] rfl (fun _ _ => rfl)).1, h.1.1⟩

/-- A `DLResult` with no terminal state is `raised` with its own request
count. -/
theorem raised_of_none_terminal (x : DLResult) (h : x.terminalState = none) :
    ∃ fs', x = DLResult.raised x.requestCount fs' := by
  cases x with
  | done r t fs => simp [DLResult.terminalState] at h
  | raised r fs => exact ⟨fs, rfl⟩

/-- Claim C9: an attempt outcome that is not a requests-level error — an OS
error opening or writing the destination file — is not caught: the retry loop
ends without a terminal state after exactly the attempt that raised (no
retry of that WorkItem), and the run driver aborts with no further WorkItems
processed. -/
theorem c9_uncaught_oserror (outcomes : String → Nat → Outcome) (u : String) (k : Nat)
    (f? : Option (List Nat)) (fs : FS) (post : List String)
    (hk1 : 1 ≤ k) (hk5 : k ≤ MAX_RETRIES)
    (ht : ∀ j, 1 ≤ j → j < k → (outcomes u j).isTransient = true)
    (hos : outcomes u k = Outcome.osError f?) :
    (download_with_retries (outcomes u) (destName u) fs).terminalState = none ∧
    (download_with_retries (outcomes u) (destName u) fs).requestCount = k ∧
    ∃ fs', download_all outcomes (u :: post) fs = RunOutcome.aborted [] u k fs' := by
  have hr : List.range' 1 MAX_RETRIES = [1, 2, 3, 4, 5] := rfl
  have hA : (download_with_retries (outcomes u) (destName u) fs).terminalState = none ∧
      (download_with_retries (outcomes u) (destName u) fs).requestCount = k := by
    have hk5' : k ≤ 5 := hk5
    cases f? with
    | none =>
      interval_cases k
      · simp [download_with_retries, hr, runRetries, hos,
          DLResult.terminalState, DLResult.requestCount]
      · rcases isTransient_eq _ (ht 1 (by omega) (by omega)) with h1 | ⟨w1, h1⟩ <;>
          simp [download_with_retries, hr, runRetries, hos, h1,
            DLResult.terminalState, DLResult.requestCount]
      · rcases isTransient_eq _ (ht 1 (by omega) (by omega)) with h1 | ⟨w1, h1⟩ <;>
          rcases isTransient_eq _ (ht 2 (by omega) (by omega)) with h2 | ⟨w2, h2⟩ <;>
          simp [download_with_retries, hr, runRetries, hos, h1, h2,
            DLResult.terminalState, DLResult.requestCount]
      · rcases isTransient_eq _ (ht 1 (by omega) (by omega)) with h1 | ⟨w1, h1⟩ <;>
          rcases isTransient_eq _ (ht 2 (by omega) (by omega)) with h2 | ⟨w2, h2⟩ <;>
          rcases isTransient_eq _ (ht 3 (by omega) (by omega)) with h3 | ⟨w3, h3⟩ <;>
          simp [download_with_retries, hr, runRetries, hos, h1, h2, h3,
            DLResult.terminalState, DLResult.requestCount]
      · rcases isTransient_eq _ (ht 1 (by omega) (by omega)) with h1 | ⟨w1, h1⟩ <;>
          rcases isTransient_eq _ (ht 2 (by omega) (by omega)) with h2 | ⟨w2, h2⟩ <;>
          rcases isTransient_eq _ (ht 3 (by omega) (by omega)) with h3 | ⟨w3, h3⟩ <;>
          rcases isTransient_eq _ (ht 4 (by omega) (by omega)) with h4 | ⟨w4, h4⟩ <;>
          simp [download_with_retries, hr, runRetries, hos, h1, h2, h3, h4,
            DLResult.terminalState, DLResult.requestCount]
    | some w =>
      interval_cases k
      · simp [download_with_retries, hr, runRetries, hos,
          DLResult.terminalState, DLResult.requestCount]
      · rcases isTransient_eq _ (ht 1 (by omega) (by omega)) with h1 | ⟨w1, h1⟩ <;>
          simp [download_with_retries, hr, runRetries, hos, h1,
            DLResult.terminalState, DLResult.requestCount]
      · rcases isTransient_eq _ (ht 1 (by omega) (by omega)) with h1 | ⟨w1, h1⟩ <;>
          rcases isTransient_eq _ (ht 2 (by omega) (by omega)) with h2 | ⟨w2, h2⟩ <;>
          simp [download_with_retries, hr, runRetries, hos, h1, h2,
            DLResult.terminalState, DLResult.requestCount]
      · rcases isTransient_eq _ (ht 1 (by omega) (by omega)) with h1 | ⟨w1, h1⟩ <;>
          rcases isTransient_eq _ (ht 2 (by omega) (by omega)) with h2 | ⟨w2, h2⟩ <;>
          rcases isTransient_eq _ (ht 3 (by omega) (by omega)) with h3 | ⟨w3, h3⟩ <;>
          simp [download_with_retries, hr, runRetries, hos, h1, h2, h3,
            DLResult.terminalState, DLResult.requestCount]
      · rcases isTransient_eq _ (ht 1 (by omega) (by omega)) with h1 | ⟨w1, h1⟩ <;>
          rcases isTransient_eq _ (ht 2 (by omega) (by omega)) with h2 | ⟨w2, h2⟩ <;>
          rcases isTransient_eq _ (ht 3 (by omega) (by omega)) with h3 | ⟨w3, h3⟩ <;>
          rcases isTransient_eq _ (ht 4 (by omega) (by omega)) with h4 | ⟨w4, h4⟩ <;>
          simp [download_with_retries, hr, runRetries, hos, h1, h2, h3, h4,
            DLResult.terminalState, DLResult.requestCount]
  obtain ⟨fs', he⟩ := raised_of_none_terminal _ hA.1
  rw [hA.2] at he
  refine ⟨hA.1, hA.2, fs', ?_⟩
  simp [download_all, he]

/-- Witness for C9: attempt 1 fails with a connection error, attempt 2 hits
an OS error; the loop stops after 2 requests with no terminal state. -/
theorem c9_uncaught_oserror_witness :
    (download_with_retries
      ((fun _ n => if n = 2 then Outcome.osError none else Outcome.httpError) "u")
      (destName "u") (fun _ => none)).terminalState = none ∧
    (download_with_retries
      ((fun _ n => if n = 2 then Outcome.osError none else Outcome.httpError) "u")
      (destName "u") (fun _ => none)).requestCount = 2 := by
  have h := c9_uncaught_oserror
    (fun _ n => if n = 2 then Outcome.osError none else Outcome.httpError)
    "u" 2 none (fun _ => none) [] (by omega) (by decide)
    (fun j hj1 hj2 => by interval_cases j; rfl) rfl
  exact ⟨h.1, h.2.1⟩

/-- Claim C10: the existence check runs once at startup; two queued URLs with
the same terminal segment, neither present at startup, both stay in the
queue, both are downloaded in order, and the later success overwrites the
earlier one's file — a file created mid-run never causes a later skip. -/
theorem c10_filter_once (ex : String → Bool) (outcomes : String → Nat → Outcome) (fs : FS)
    (u1 u2 : String) (b1 b2 : List Nat)
    (hname : destName u1 = destName u2)
    (hex : ex (destName u1) = false)
    (h1 : outcomes u1 1 = Outcome.success b1)
    (h2 : outcomes u2 1 = Outcome.success b2) :
    filter_existing_files ex [u1, u2] = [u1, u2] ∧
    ∃ fs', download_all outcomes [u1, u2] fs =
        RunOutcome.completed [(u1, 1, Terminal.succeeded), (u2, 1, Terminal.succeeded)] fs' ∧
      fs' (destName u1) = some b2 := by
  have hex2 : ex (destName u2) = false := hname ▸ hex
  have hr : List.range' 1 MAX_RETRIES = [1, 2, 3, 4, 5] := rfl
  refine ⟨by simp [filter_existing_files, hex, hex2], ?_⟩
  refine ⟨setFile (setFile fs (destName u1) b1) (destName u2) b2, ?_, ?_⟩
  · simp [download_all, download_with_retries, hr, runRetries, h1, h2]
  · rw [hname]
    simp [setFile]

/-- Witness for C10: two URLs both named `f.nc` in different directories,
empty directory, both succeeding on attempt 1. -/
theorem c10_filter_once_witness :
    filter_existing_files (fun _ => false) ["https://h/a/f.nc", "https://h/b/f.nc"]
      = ["https://h/a/f.nc", "https://h/b/f.nc"] := by
  have h := c10_filter_once (fun _ => false)
    (fun u _ => if u = "https://h/a/f.nc" then Outcome.success [1] else Outcome.success [2])
    (fun _ => none) "https://h/a/f.nc" "https://h/b/f.nc" [1] [2] rfl rfl (by decide) (by decide)
  exact h.1

end EarthdataDownloader
